import Mathlib

/-!
Verification of the Azure networking provisioning module
(perfkitbenchmarker/providers/azure/azure_network.py).

The Python module is shallowly embedded: each class's immutable attributes
become a Lean structure, mutable attributes become explicit state records,
and every external CLI invocation (vm_util.IssueCommand /
IssueRetryableCommand) is recorded as an `AzureCmd` value in an emitted
trace instead of being executed.  Python dicts keyed by port pairs are
modelled as insertion-ordered association lists (only membership, size and
iteration are used by the code).  Python string formatting with `%s` on an
integer is modelled with `Nat.repr`.
-/

/-! ### Decimal representation: `Nat.repr` is injective

The address-space allocator of `AzureVirtualNetwork` embeds a counter into
the string '10.%s.0.0/16'.  To show distinct counters give distinct
strings we prove that the decimal printer of core Lean is injective, by
exhibiting a decoder.
-/

/-- Decode a decimal digit character produced by `Nat.digitChar`. -/
def decDigit (c : Char) : Nat := c.toNat - 48

/-- Decode a list of decimal digit characters, most significant first. -/
def decChars (l : List Char) : Nat := l.foldl (fun a c => a * 10 + decDigit c) 0

/-- Structural (fuel-free) description of the digit list produced by
`Nat.toDigitsCore` at base 10. -/
def decRep (n : Nat) : List Char :=
  if n < 10 then [Nat.digitChar n]
  else decRep (n / 10) ++ [Nat.digitChar (n % 10)]
decreasing_by
  exact Nat.div_lt_self (by omega) (by omega)

/-! ### The external CLI interface

Every provider call in the module is a `vm_util.IssueCommand` /
`IssueRetryableCommand` on an argument list.  We record each call as an
`AzureCmd`; `AzureCmd.argv` renders exactly the argument list the source
builds, connecting each constructor to the source text.
-/

/-- Modelled from the spec: `azure.AZURE_PATH` comes from the
`perfkitbenchmarker.providers.azure` package, which is not part of the
sources; it is the path of the external provider CLI binary. -/
def AZURE_PATH : String := "azure"

def DEFAULT_LOCATION : String := "eastus2"

/-- The serialized empty JSON object (stdout `'{}\n'` in the source) that
show-style queries print for an absent resource. -/
def emptyJsonObject : String := "\x7b\x7d\n"

/-- One invocation of the external Azure CLI, as issued by the module. -/
inductive AzureCmd where
  | groupCreate (name location : String)
  | resourceList (name : String)
  | groupDelete (name : String)
  | storageAccountCreate (kind sku name rgName : String)
      (location accessTier : Option String)
  | storageConnectionStringShow (name rgName : String)
  | storageKeysList (name rgName : String)
  | storageAccountDelete (name rgName : String)
  | storageAccountShow (name rgName : String)
  | vnetCreate (location addressSpace name rgName : String)
  | vnetDelete (name rgName : String)
  | vnetShow (name rgName : String)
  | subnetCreate (vnetName addressPrefix name rgName : String)
  | subnetShow (vnetName name rgName : String)
  | subnetDelete (vnetName name rgName : String)
  | subnetSet (subnetName nsgName rgName vnetName : String)
  | nsgCreate (location name rgName : String)
  | nsgShow (name rgName : String)
  | nsgDelete (name rgName : String)
  | nsgRuleCreate (ruleName : String) (destPortRange : Option String)
      (access : String) (priority : Nat) (rgName nsgName : String)
  | nsgRuleDelete (ruleName rgName nsgName : String)
deriving DecidableEq

/-- Renders the exact argument list each command corresponds to in the
source (`--resource-group name` is the resource group's `args` fragment,
`--nsg-name name` the security group's, `--vnet-name name` the virtual
network's). -/
def AzureCmd.argv : AzureCmd → List String
  | groupCreate name location =>
      [AZURE_PATH, "group", "create", name, location]
  | resourceList name =>
      [AZURE_PATH, "resource", "list", name]
  | groupDelete name =>
      [AZURE_PATH, "group", "delete", "--quiet", name]
  | storageAccountCreate kind sku name rgName location accessTier =>
      [AZURE_PATH, "storage", "account", "create", "--kind", kind,
        "--sku-name", sku, name, "--resource-group", rgName]
      ++ (match location with | some l => ["--location", l] | none => [])
      ++ (match accessTier with | some t => ["--access-tier", t] | none => [])
  | storageConnectionStringShow name rgName =>
      [AZURE_PATH, "storage", "account", "connectionstring", "show",
        "--json", name, "--resource-group", rgName]
  | storageKeysList name rgName =>
      [AZURE_PATH, "storage", "account", "keys", "list", "--json", name,
        "--resource-group", rgName]
  | storageAccountDelete name rgName =>
      [AZURE_PATH, "storage", "account", "delete", "--quiet", name,
        "--resource-group", rgName]
  | storageAccountShow name rgName =>
      [AZURE_PATH, "storage", "account", "show", "--json", name,
        "--resource-group", rgName]
  | vnetCreate location addressSpace name rgName =>
      [AZURE_PATH, "network", "vnet", "create", "--location", location,
        "--address-prefixes", addressSpace, name, "--resource-group", rgName]
  | vnetDelete name rgName =>
      [AZURE_PATH, "network", "vnet", "delete", "--quiet", name,
        "--resource-group", rgName]
  | vnetShow name rgName =>
      [AZURE_PATH, "network", "vnet", "show", "--json", name,
        "--resource-group", rgName]
  | subnetCreate vnetName addressPrefix name rgName =>
      [AZURE_PATH, "network", "vnet", "subnet", "create", "--vnet-name",
        vnetName, "--address-prefix", addressPrefix, name,
        "--resource-group", rgName]
  | subnetShow vnetName name rgName =>
      [AZURE_PATH, "network", "vnet", "subnet", "show", "--vnet-name",
        vnetName, "--json", name, "--resource-group", rgName]
  | subnetDelete vnetName name rgName =>
      [AZURE_PATH, "network", "vnet", "subnet", "delete", "--vnet-name",
        vnetName, "--quiet", name, "--resource-group", rgName]
  | subnetSet subnetName nsgName rgName vnetName =>
      [AZURE_PATH, "network", "vnet", "subnet", "set", "--name", subnetName,
        "--network-security-group-name", nsgName, "--resource-group", rgName,
        "--vnet-name", vnetName]
  | nsgCreate location name rgName =>
      [AZURE_PATH, "network", "nsg", "create", "--location", location, name,
        "--resource-group", rgName]
  | nsgShow name rgName =>
      [AZURE_PATH, "network", "nsg", "show", "--json", name,
        "--resource-group", rgName]
  | nsgDelete name rgName =>
      [AZURE_PATH, "network", "nsg", "delete", "--quiet", name,
        "--resource-group", rgName]
  | nsgRuleCreate ruleName destPortRange access priority rgName nsgName =>
      [AZURE_PATH, "network", "nsg", "rule", "create", ruleName]
      ++ (match destPortRange with
          | some r => ["--destination-port-range", r]
          | none => [])
      ++ ["--access", access, "--priority", Nat.repr priority,
        "--resource-group", rgName, "--nsg-name", nsgName]
  | nsgRuleDelete ruleName rgName nsgName =>
      [AZURE_PATH, "network", "nsg", "rule", "delete", "--quiet", ruleName,
        "--resource-group", rgName, "--nsg-name", nsgName]

/-! ### AzureResourceGroup -/

/-- Immutable attributes set by `AzureResourceGroup.__init__`.  The source
field `storage_account_prefix` is here called
`storage_account_name_stem`. -/
structure AzureResourceGroup where
  name : String
  storage_account_name_stem : String
  location : String
  args : List String
deriving DecidableEq

/-- `AzureResourceGroup.__init__(run_uri, spec_uid)`; `zones` is
`FLAGS.zones` (the location is its first element, or the default). -/
def AzureResourceGroup.init (zones : List String) (run_uri spec_uid : String) :
    AzureResourceGroup :=
  { name := "pkb" ++ run_uri ++ "-" ++ spec_uid
  , storage_account_name_stem := "pkb" ++ run_uri ++ spec_uid
  , location := match zones with | z :: _ => z | [] => DEFAULT_LOCATION
  , args := ["--resource-group", "pkb" ++ run_uri ++ "-" ++ spec_uid] }

/-- Commands issued by `AzureResourceGroup._Create`. -/
def AzureResourceGroup.createCmds (g : AzureResourceGroup) : List AzureCmd :=
  [AzureCmd.groupCreate g.name g.location]

/-- Commands issued by `AzureResourceGroup._Delete`. -/
def AzureResourceGroup.deleteCmds (g : AzureResourceGroup) : List AzureCmd :=
  [AzureCmd.groupDelete g.name]

/-- Decision logic of `AzureResourceGroup._Exists`, as a function of the
probe command's observed stdout and exit code: `return retcode == 0`. -/
def AzureResourceGroup.ExistsProbe (stdout : String) (retcode : Nat) : Bool :=
  retcode == 0

/-! ### AzureStorageAccount -/

structure AzureStorageAccount where
  storage_type : String
  name : String
  resource_group : AzureResourceGroup
  location : String
  kind : String
  access_tier : Option String
deriving DecidableEq

/-- `AzureStorageAccount.__init__`.  Python truthiness of `kind or
'Storage'` treats `None` and the empty string as falsy; the
`assert access_tier is None` branch is modelled as `none`. -/
def AzureStorageAccount.init (storage_type location name : String)
    (rg : AzureResourceGroup) (kind access_tier : Option String) :
    Option AzureStorageAccount :=
  let kindVal := match kind with
    | none => "Storage"
    | some k => if k = "" then "Storage" else k
  if kind = some "BlobStorage" then
    some { storage_type := storage_type, name := name, resource_group := rg
         , location := location, kind := kindVal
         , access_tier := some (match access_tier with
             | none => "Hot"
             | some t => if t = "" then "Hot" else t) }
  else
    match access_tier with
    | some _ => none
    | none =>
      some { storage_type := storage_type, name := name, resource_group := rg
           , location := location, kind := kindVal, access_tier := none }

/-- Commands issued by `AzureStorageAccount._Create` (the `--location` and
`--access-tier` fragments are appended only under the source's `if`s). -/
def AzureStorageAccount.createCmds (sa : AzureStorageAccount) : List AzureCmd :=
  [AzureCmd.storageAccountCreate sa.kind sa.storage_type sa.name
    sa.resource_group.name
    (if sa.location = "" then none else some sa.location)
    (if sa.kind = "BlobStorage" then sa.access_tier else none)]

/-- Commands issued by `AzureStorageAccount._Delete`. -/
def AzureStorageAccount.deleteCmds (sa : AzureStorageAccount) : List AzureCmd :=
  [AzureCmd.storageAccountDelete sa.name sa.resource_group.name]

/-- Decision logic of `AzureStorageAccount._Exists`: `return retcode == 0`. -/
def AzureStorageAccount.ExistsProbe (stdout : String) (retcode : Nat) : Bool :=
  retcode == 0

/-! ### AzureVirtualNetwork -/

structure AzureVirtualNetwork where
  name : String
  resource_group : AzureResourceGroup
  location : String
  args : List String
  vnet_num : Nat
  address_space : String
deriving DecidableEq

/-- `AzureVirtualNetwork.__init__(location, name)`: takes the shared
class-level counter `num_vnets` under `vnet_lock` and increments it; the
address space is `'10.%s.0.0/16' % self.vnet_num`. -/
def AzureVirtualNetwork.init (rg : AzureResourceGroup) (location name : String)
    (num_vnets : Nat) : AzureVirtualNetwork × Nat :=
  ({ name := name, resource_group := rg, location := location
   , args := ["--vnet-name", name]
   , vnet_num := num_vnets
   , address_space := "10." ++ Nat.repr num_vnets ++ ".0.0/16" },
   num_vnets + 1)

/-- Commands issued by `AzureVirtualNetwork._Create`. -/
def AzureVirtualNetwork.createCmds (v : AzureVirtualNetwork) : List AzureCmd :=
  [AzureCmd.vnetCreate v.location v.address_space v.name v.resource_group.name]

/-- Commands issued by `AzureVirtualNetwork._Delete`. -/
def AzureVirtualNetwork.deleteCmds (v : AzureVirtualNetwork) : List AzureCmd :=
  [AzureCmd.vnetDelete v.name v.resource_group.name]

/-- Decision logic of `AzureVirtualNetwork._Exists`:
`return retcode == 0 and stdout != '{}\n'`. -/
def AzureVirtualNetwork.ExistsProbe (stdout : String) (retcode : Nat) : Bool :=
  retcode == 0 && stdout != emptyJsonObject

/-! ### AzureSubnet -/

structure AzureSubnet where
  resource_group : AzureResourceGroup
  vnet : AzureVirtualNetwork
  name : String
  args : List String
deriving DecidableEq

/-- `AzureSubnet.__init__(vnet, name)`. -/
def AzureSubnet.init (rg : AzureResourceGroup) (vnet : AzureVirtualNetwork)
    (name : String) : AzureSubnet :=
  { resource_group := rg, vnet := vnet, name := name
  , args := ["--vnet-subnet-name", name] }

/-- Commands issued by `AzureSubnet._Create`. -/
def AzureSubnet.createCmds (s : AzureSubnet) : List AzureCmd :=
  [AzureCmd.subnetCreate s.vnet.name s.vnet.address_space s.name
    s.resource_group.name]

/-- Commands issued by `AzureSubnet._Delete`. -/
def AzureSubnet.deleteCmds (s : AzureSubnet) : List AzureCmd :=
  [AzureCmd.subnetDelete s.vnet.name s.name s.resource_group.name]

/-- Decision logic of `AzureSubnet._Exists`:
`return retcode == 0 and stdout != '{}\n'`. -/
def AzureSubnet.ExistsProbe (stdout : String) (retcode : Nat) : Bool :=
  retcode == 0 && stdout != emptyJsonObject

/-! ### AzureNetworkSecurityGroup

Immutable attributes in `AzureNetworkSecurityGroup`, the mutable rule
table and deny-all flag (guarded by `rules_lock` in the source) in
`NsgState`.  The Python dict `self.rules` maps `(start_port, end_port)` to
the rule name; it is modelled as an insertion-ordered association list
(the code only uses membership, `len`, insertion and iteration).
-/

structure AzureNetworkSecurityGroup where
  location : String
  subnet : AzureSubnet
  name : String
  resource_group : AzureResourceGroup
  args : List String
deriving DecidableEq

/-- `AzureNetworkSecurityGroup.__init__(location, subnet, name)` (the
immutable part). -/
def AzureNetworkSecurityGroup.init (location : String) (subnet : AzureSubnet)
    (name : String) (rg : AzureResourceGroup) : AzureNetworkSecurityGroup :=
  { location := location, subnet := subnet, name := name
  , resource_group := rg, args := ["--nsg-name", name] }

/-- The mutable state of one security group: `self.rules` and
`self.have_deny_all_rule`. -/
structure NsgState where
  rules : List ((Nat × Nat) × String)
  have_deny_all_rule : Bool
deriving DecidableEq

/-- The initial state set in `__init__`: empty table, flag unset. -/
def initNsgState : NsgState := { rules := [], have_deny_all_rule := false }

/-- The keys of the rule table. -/
def NsgState.ruleKeys (st : NsgState) : List (Nat × Nat) := st.rules.map Prod.fst

/-- Python `end_port = end_port or start_port`: `None` and `0` are falsy
and are replaced by `start_port`. -/
def pyEndPort (start_port : Nat) : Option Nat → Nat
  | none => start_port
  | some e => if e = 0 then start_port else e

/-- Commands issued by `AzureNetworkSecurityGroup._Create`. -/
def AzureNetworkSecurityGroup.createCmds (g : AzureNetworkSecurityGroup) :
    List AzureCmd :=
  [AzureCmd.nsgCreate g.location g.name g.resource_group.name]

/-- Commands issued by `AzureNetworkSecurityGroup._Delete`. -/
def AzureNetworkSecurityGroup.deleteCmds (g : AzureNetworkSecurityGroup) :
    List AzureCmd :=
  [AzureCmd.nsgDelete g.name g.resource_group.name]

/-- Decision logic of `AzureNetworkSecurityGroup._Exists`:
`return retcode == 0 and stdout != '{}\n'`. -/
def AzureNetworkSecurityGroup.ExistsProbe (stdout : String) (retcode : Nat) :
    Bool :=
  retcode == 0 && stdout != emptyJsonObject

/-- Commands issued by `AzureNetworkSecurityGroup.AttachToSubnet`. -/
def AzureNetworkSecurityGroup.AttachToSubnet (g : AzureNetworkSecurityGroup) :
    List AzureCmd :=
  [AzureCmd.subnetSet g.subnet.name g.name g.resource_group.name
    g.subnet.vnet.name]

/-- `AzureNetworkSecurityGroup.AllowPort(vm, start_port, end_port=None,
source_range=None)`.  Returns the new state and the issued commands, or
the `ValueError('Too many firewall rules!')` message (in which case the
state is unchanged and nothing was issued: the raise happens before the
table update and before the CLI call).  `vm` and `source_range` are
accepted and unused, exactly as in the source. -/
def AzureNetworkSecurityGroup.AllowPort (g : AzureNetworkSecurityGroup)
    (st : NsgState) (vm : String) (start_port : Nat) (end_port : Option Nat)
    (source_range : Option String) : Except String (NsgState × List AzureCmd) :=
  let ep := pyEndPort start_port end_port
  if (start_port, ep) ∈ st.ruleKeys then Except.ok (st, [])
  else
    let port_range := Nat.repr start_port ++ "-" ++ Nat.repr ep
    let rule_name := "allow-" ++ port_range
    let rule_priority := 100 + st.rules.length
    if rule_priority ≥ 4095 then Except.error "Too many firewall rules!"
    else
      Except.ok ({ st with rules := st.rules ++ [((start_port, ep), rule_name)] },
        [AzureCmd.nsgRuleCreate rule_name (some port_range) "Allow"
          rule_priority g.resource_group.name g.name])

/-- `AzureNetworkSecurityGroup.DisallowAllPorts()`: one delete per tracked
rule, then the table is reset; the DenyAll rule is created at priority
4095 only if `have_deny_all_rule` is not already set. -/
def AzureNetworkSecurityGroup.DisallowAllPorts (g : AzureNetworkSecurityGroup)
    (st : NsgState) : NsgState × List AzureCmd :=
  let deletes := st.rules.map (fun pr =>
    AzureCmd.nsgRuleDelete pr.2 g.resource_group.name g.name)
  if st.have_deny_all_rule then
    ({ rules := [], have_deny_all_rule := true }, deletes)
  else
    ({ rules := [], have_deny_all_rule := true },
     deletes ++ [AzureCmd.nsgRuleCreate "DenyAll" none "Deny" 4095
       g.resource_group.name g.name])

/-- `AzureFirewall.AllowPort` resolves the VM's security group and
delegates, passing `source_range` through unchanged. -/
def AzureFirewall.AllowPort (g : AzureNetworkSecurityGroup) (st : NsgState)
    (vm : String) (start_port : Nat) (end_port : Option Nat)
    (source_range : Option String) : Except String (NsgState × List AzureCmd) :=
  AzureNetworkSecurityGroup.AllowPort g st vm start_port end_port source_range

/-! ### Sequences of firewall operations on one security group -/

/-- An externally invokable firewall operation on one security group. -/
inductive NsgOp where
  | allowPort (vm : String) (start_port : Nat) (end_port : Option Nat)
      (source_range : Option String)
  | disallowAllPorts
deriving DecidableEq

/-- One operation against the shared state.  A raised `ValueError` leaves
the state unchanged and issues nothing. -/
def NsgStep (g : AzureNetworkSecurityGroup) (st : NsgState) :
    NsgOp → NsgState × List AzureCmd
  | NsgOp.allowPort vm s e sr =>
    match AzureNetworkSecurityGroup.AllowPort g st vm s e sr with
    | Except.ok res => res
    | Except.error _ => (st, [])
  | NsgOp.disallowAllPorts => AzureNetworkSecurityGroup.DisallowAllPorts g st

/-- Run a sequence of operations, accumulating the trace of issued
commands. -/
def NsgRun (g : AzureNetworkSecurityGroup) (st : NsgState) :
    List NsgOp → NsgState × List AzureCmd
  | [] => (st, [])
  | op :: ops =>
    let r1 := NsgStep g st op
    let r2 := NsgRun g r1.1 ops
    (r2.1, r1.2 ++ r2.2)

/-! ### The resource lifecycle framework and GetResourceGroup -/

/-- Modelled from the spec: `resource.BaseResource` (imported as
`perfkitbenchmarker.resource`, not among the sources).  Per spec section
4.1, `Create` is idempotent at the handle level — once a handle has
successfully created its object, subsequent `Create` calls are no-ops
guarded by an internal already-created flag — and `Delete` is safely
callable multiple times with the underlying deletion collapsed to one
call (spec section 8: create/delete "collapsed to one call each").  Only
the `_Create`/`_Delete` provisioning commands are traced; the read-only
`_PostCreate` queries depend on command output and are outside this
model. -/
structure ResourceLifecycle where
  created : Bool
  deleted : Bool
deriving DecidableEq

/-- A handle that has not provisioned anything yet. -/
def freshResource : ResourceLifecycle := { created := false, deleted := false }

/-- Modelled from the spec: `BaseResource.Create` — issue the underlying
creation commands only on the first call. -/
def ResourceLifecycle.Create (r : ResourceLifecycle) (cmds : List AzureCmd) :
    ResourceLifecycle × List AzureCmd :=
  if r.created then (r, []) else ({ r with created := true }, cmds)

/-- Modelled from the spec: `BaseResource.Delete` — issue the underlying
deletion commands only on the first call. -/
def ResourceLifecycle.Delete (r : ResourceLifecycle) (cmds : List AzureCmd) :
    ResourceLifecycle × List AzureCmd :=
  if r.deleted then (r, []) else ({ r with deleted := true }, cmds)

/-- The per-run benchmark spec object.  Modelled from the spec:
`context.GetThreadBenchmarkSpec()` (the `context` module is not among the
sources) yields the current run's spec, whose `azure_resource_group`
attribute is absent until `GetResourceGroup` first sets it; the lookup
and the set are one critical section under `spec.networks_lock`. -/
structure BenchmarkSpec where
  uid : String
  azure_resource_group : Option AzureResourceGroup
deriving DecidableEq

/-- `GetResourceGroup()`: return the cached group, or construct, cache and
return it.  `zones` is `FLAGS.zones` and `run_uri` is `FLAGS.run_uri`. -/
def GetResourceGroup (zones : List String) (run_uri : String)
    (spec : BenchmarkSpec) : AzureResourceGroup × BenchmarkSpec :=
  match spec.azure_resource_group with
  | some group => (group, spec)
  | none =>
    let group := AzureResourceGroup.init zones run_uri spec.uid
    (group, { spec with azure_resource_group := some group })

/-! ### AzureNetwork (the regional topology) -/

/-- Python `s[:k]` for a possibly negative `k`. -/
def pySliceTo (s : String) (k : Int) : String :=
  if 0 ≤ k then s.take k.toNat else s.take (s.length - (-k).toNat)

/-- The network-related objects for one zone, wired by
`AzureNetwork.__init__`. -/
structure AzureNetwork where
  zone : String
  resource_group : AzureResourceGroup
  storage_account : AzureStorageAccount
  vnet : AzureVirtualNetwork
  subnet : AzureSubnet
  nsg : AzureNetworkSecurityGroup
deriving DecidableEq

/-- `AzureNetwork.__init__(spec)` for a benchmark spec with zone `zone`.
All five members call `GetResourceGroup()`; after the first call the spec
caches the handle, so every member receives the same group.
`azure_storage_type` is `FLAGS.azure_storage_type`.  Returns `none` only
if the storage-account constructor's assertion fails (it cannot here:
`kind` and `access_tier` are passed as `None`). -/
def AzureNetwork.init (zones : List String) (run_uri : String)
    (spec : BenchmarkSpec) (zone azure_storage_type : String)
    (num_vnets : Nat) : Option (AzureNetwork × BenchmarkSpec × Nat) :=
  let rgSpec := GetResourceGroup zones run_uri spec
  let rg := rgSpec.1
  let suffix := zone ++ "storage"
  let saName :=
    pySliceTo rg.storage_account_name_stem (24 - (suffix.length : Int)) ++ suffix
  match AzureStorageAccount.init azure_storage_type zone saName rg none none with
  | none => none
  | some sa =>
    let namePre := rg.name ++ "-" ++ zone
    let vnetCtr := AzureVirtualNetwork.init rg zone (namePre ++ "-vnet") num_vnets
    let vnet := vnetCtr.1
    let subnet := AzureSubnet.init rg vnet (vnet.name ++ "-subnet")
    let nsg := AzureNetworkSecurityGroup.init zone subnet (subnet.name ++ "-nsg") rg
    some ({ zone := zone, resource_group := rg, storage_account := sa
          , vnet := vnet, subnet := subnet, nsg := nsg }, rgSpec.2, vnetCtr.2)

/-- The lifecycle flags of the four per-zone resources (the shared
resource group's flags are threaded separately, since two zones may share
one group handle). -/
structure AzureNetworkLifecycle where
  storage_account : ResourceLifecycle
  vnet : ResourceLifecycle
  subnet : ResourceLifecycle
  nsg : ResourceLifecycle
deriving DecidableEq

def freshNetworkLifecycle : AzureNetworkLifecycle :=
  { storage_account := freshResource, vnet := freshResource
  , subnet := freshResource, nsg := freshResource }

/-- `AzureNetwork.Create()`: resource group, storage account, vnet,
subnet, nsg, then `AttachToSubnet` (which is issued unconditionally, not
lifecycle-guarded). -/
def AzureNetwork.Create (net : AzureNetwork) (rgL : ResourceLifecycle)
    (lc : AzureNetworkLifecycle) :
    (ResourceLifecycle × AzureNetworkLifecycle) × List AzureCmd :=
  let r1 := rgL.Create net.resource_group.createCmds
  let r2 := lc.storage_account.Create net.storage_account.createCmds
  let r3 := lc.vnet.Create net.vnet.createCmds
  let r4 := lc.subnet.Create net.subnet.createCmds
  let r5 := lc.nsg.Create net.nsg.createCmds
  let attach := net.nsg.AttachToSubnet
  ((r1.1, { storage_account := r2.1, vnet := r3.1, subnet := r4.1, nsg := r5.1 }),
   r1.2 ++ r2.2 ++ r3.2 ++ r4.2 ++ r5.2 ++ attach)

/-- `AzureNetwork.Delete()`: subnet, nsg, vnet, storage account, then the
shared resource group. -/
def AzureNetwork.Delete (net : AzureNetwork) (rgL : ResourceLifecycle)
    (lc : AzureNetworkLifecycle) :
    (ResourceLifecycle × AzureNetworkLifecycle) × List AzureCmd :=
  let r1 := lc.subnet.Delete net.subnet.deleteCmds
  let r2 := lc.nsg.Delete net.nsg.deleteCmds
  let r3 := lc.vnet.Delete net.vnet.deleteCmds
  let r4 := lc.storage_account.Delete net.storage_account.deleteCmds
  let r5 := rgL.Delete net.resource_group.deleteCmds
  ((r5.1, { storage_account := r4.1, vnet := r3.1, subnet := r1.1, nsg := r2.1 }),
   r1.2 ++ r2.2 ++ r3.2 ++ r4.2 ++ r5.2)

/-! ### Statement-side abbreviations and concrete fixtures -/

/-- The DenyAll creation command `DisallowAllPorts` issues for group `g`. -/
def denyAllCmd (g : AzureNetworkSecurityGroup) : AzureCmd :=
  AzureCmd.nsgRuleCreate "DenyAll" none "Deny" 4095 g.resource_group.name g.name

/-- The arguments of one `AllowPort` call: caller vm, start port, optional
end port, optional source range. -/
abbrev AllowCall := String × Nat × Option Nat × Option String

/-- The `port_range` string of an `AllowPort(_, s, e)` call. -/
def portRange (s : Nat) (e : Option Nat) : String :=
  Nat.repr s ++ "-" ++ Nat.repr (pyEndPort s e)

/-- The rule-table entry an `AllowPort(_, s, e)` call inserts. -/
def portEntry (s : Nat) (e : Option Nat) : (Nat × Nat) × String :=
  ((s, pyEndPort s e), "allow-" ++ portRange s e)

/-- The rule-creation command an `AllowPort(_, s, e)` call issues at
priority `p` on group `g`. -/
def portCmd (g : AzureNetworkSecurityGroup) (s : Nat) (e : Option Nat)
    (p : Nat) : AzureCmd :=
  AzureCmd.nsgRuleCreate ("allow-" ++ portRange s e) (some (portRange s e))
    "Allow" p g.resource_group.name g.name

/-- The rule-table key an `AllowPort` call normalizes to. -/
def callKey (t : AllowCall) : Nat × Nat := (t.2.1, pyEndPort t.2.1 t.2.2.1)

/-- The rule-table entry an `AllowPort` call inserts. -/
def callEntry (t : AllowCall) : (Nat × Nat) × String :=
  portEntry t.2.1 t.2.2.1

/-- The rule-creation command an `AllowPort` call issues at priority `p`. -/
def callCmd (g : AzureNetworkSecurityGroup) (t : AllowCall) (p : Nat) : AzureCmd :=
  portCmd g t.2.1 t.2.2.1 p

/-- The `NsgOp`s of a list of `AllowPort` calls. -/
def allowOps (ts : List AllowCall) : List NsgOp :=
  ts.map fun t => NsgOp.allowPort t.1 t.2.1 t.2.2.1 t.2.2.2

/-- The priority carried by a rule-creation command. -/
def priorityOf : AzureCmd → Option Nat
  | AzureCmd.nsgRuleCreate _ _ _ p _ _ => some p
  | _ => none

/-- The priorities carried by the rule-creation commands of a trace. -/
def rulePriorities (cs : List AzureCmd) : List Nat :=
  cs.filterMap priorityOf

/-- Recognizes a resource-group creation command. -/
def AzureCmd.isGroupCreate : AzureCmd → Bool
  | AzureCmd.groupCreate _ _ => true
  | _ => false

/-- Recognizes a resource-group deletion command. -/
def AzureCmd.isGroupDelete : AzureCmd → Bool
  | AzureCmd.groupDelete _ => true
  | _ => false

/-- Iterate `GetResourceGroup`, collecting the returned handles. -/
def getIter (zones : List String) (run_uri : String) :
    Nat → BenchmarkSpec → List AzureResourceGroup × BenchmarkSpec
  | 0, spec => ([], spec)
  | n + 1, spec =>
    let r := GetResourceGroup zones run_uri spec
    let rest := getIter zones run_uri n r.2
    (r.1 :: rest.1, rest.2)

/-- Construct a sequence of virtual networks (location/name pairs) against
the shared counter, as concurrent `AzureVirtualNetwork.__init__` calls
would in the order the counter is taken. -/
def buildVnets (rg : AzureResourceGroup) :
    List (String × String) → Nat → List AzureVirtualNetwork
  | [], _ => []
  | ln :: rest, k =>
    let r := AzureVirtualNetwork.init rg ln.1 ln.2 k
    r.1 :: buildVnets rg rest r.2

/-- Concrete fixture: the resource group of run `abc`, spec uid `1`. -/
def rgW : AzureResourceGroup := AzureResourceGroup.init ["eastus2"] "abc" "1"

/-- Concrete fixture: a virtual network in the fixture group. -/
def vnetW : AzureVirtualNetwork :=
  (AzureVirtualNetwork.init rgW "eastus2" "pkbabc-1-eastus2-vnet" 0).1

/-- Concrete fixture: the subnet of the fixture network. -/
def subnetW : AzureSubnet :=
  AzureSubnet.init rgW vnetW "pkbabc-1-eastus2-vnet-subnet"

/-- Concrete fixture: the security group of the fixture subnet. -/
def gW : AzureNetworkSecurityGroup :=
  AzureNetworkSecurityGroup.init "eastus2" subnetW
    "pkbabc-1-eastus2-vnet-subnet-nsg" rgW

/-- Concrete fixture: 3995 distinct `AllowPort` calls, ports 1 to 3995. -/
def wPorts : List AllowCall :=
  (List.range 3995).map fun i => ("vm", i + 1, none, none)
theorem toDigitsCore_zero (n : Nat) (ds : List Char) :
    Nat.toDigitsCore 10 0 n ds = ds := rfl

theorem toDigitsCore_succ (f n : Nat) (ds : List Char) :
    Nat.toDigitsCore 10 (f + 1) n ds =
      if n / 10 = 0 then Nat.digitChar (n % 10) :: ds
      else Nat.toDigitsCore 10 f (n / 10) (Nat.digitChar (n % 10) :: ds) := rfl

theorem toDigitsCore_append (f : Nat) :
    ∀ (n : Nat) (ds : List Char),
      Nat.toDigitsCore 10 (f + 1) n ds = Nat.toDigitsCore 10 (f + 1) n [] ++ ds := by
  induction f with
  | zero =>
    intro n ds
    rw [toDigitsCore_succ 0 n ds, toDigitsCore_succ 0 n []]
    split <;> simp [toDigitsCore_zero]
  | succ f ih =>
    intro n ds
    rw [toDigitsCore_succ (f + 1) n ds, toDigitsCore_succ (f + 1) n []]
    by_cases h : n / 10 = 0
    · simp [h]
    · simp only [h, if_false]
      rw [ih (n / 10) (Nat.digitChar (n % 10) :: ds),
        ih (n / 10) (Nat.digitChar (n % 10) :: [])]
      simp

theorem toDigitsCore_eq_decRep (f : Nat) :
    ∀ n : Nat, n < 10 ^ (f + 1) → Nat.toDigitsCore 10 (f + 1) n [] = decRep n := by
  induction f with
  | zero =>
    intro n hn
    simp only [zero_add, pow_one] at hn
    have hdiv : n / 10 = 0 := Nat.div_eq_of_lt hn
    have hmod : n % 10 = n := Nat.mod_eq_of_lt hn
    rw [toDigitsCore_succ 0 n [], decRep]
    rw [if_pos hdiv, if_pos hn, hmod]
  | succ f ih =>
    intro n hn
    by_cases hsmall : n < 10
    · have hdiv : n / 10 = 0 := Nat.div_eq_of_lt hsmall
      have hmod : n % 10 = n := Nat.mod_eq_of_lt hsmall
      rw [toDigitsCore_succ (f + 1) n [], decRep]
      rw [if_pos hdiv, if_pos hsmall, hmod]
    · have hdiv : ¬ n / 10 = 0 := by omega
      have hlt : n / 10 < 10 ^ (f + 1) := by
        rw [Nat.div_lt_iff_lt_mul (by omega)]
        calc n < 10 ^ (f + 1 + 1) := hn
        _ = 10 ^ (f + 1) * 10 := by rw [pow_succ]
      rw [toDigitsCore_succ (f + 1) n []]
      simp only [hdiv, if_false]
      rw [toDigitsCore_append f (n / 10) (Nat.digitChar (n % 10) :: []),
        ih (n / 10) hlt]
      conv_rhs => rw [decRep]
      rw [if_neg hsmall]

theorem decDigit_digitChar (d : Nat) (hd : d < 10) :
    decDigit (Nat.digitChar d) = d := by
  interval_cases d <;> rfl

theorem decChars_concat (l : List Char) (c : Char) :
    decChars (l ++ [c]) = decChars l * 10 + decDigit c := by
  simp [decChars, List.foldl_append]

theorem decChars_decRep (n : Nat) : decChars (decRep n) = n := by
  induction n using Nat.strong_induction_on with
  | _ n ih =>
    rw [decRep]
    by_cases h : n < 10
    · simp only [h, if_true]
      simp [decChars, decDigit_digitChar n h]
    · simp only [h, if_false]
      rw [decChars_concat]
      rw [ih (n / 10) (Nat.div_lt_self (by omega) (by omega)),
        decDigit_digitChar (n % 10) (Nat.mod_lt n (by omega))]
      omega

theorem decRep_injective : Function.Injective decRep := by
  intro a b h
  have := congrArg decChars h
  rwa [decChars_decRep, decChars_decRep] at this

theorem toDigits_eq_decRep (n : Nat) : Nat.toDigits 10 n = decRep n := by
  have hn : n < 10 ^ (n + 1) := by
    calc n < 10 ^ n := Nat.lt_pow_self (by omega) n
    _ ≤ 10 ^ (n + 1) := Nat.pow_le_pow_right (by omega) (Nat.le_succ n)
  exact toDigitsCore_eq_decRep n n hn

theorem Nat.repr_injective : Function.Injective Nat.repr := by
  intro a b h
  apply decRep_injective
  rw [← toDigits_eq_decRep, ← toDigits_eq_decRep]
  exact congrArg String.data h


/-! ### Behaviour of one AllowPort call -/

/-- A repeated request for a pair already in the table returns at once:
no state change, no command. -/
theorem AllowPort_mem (g : AzureNetworkSecurityGroup) (st : NsgState)
    (vm : String) (s : Nat) (e : Option Nat) (sr : Option String)
    (h : (s, pyEndPort s e) ∈ st.ruleKeys) :
    AzureNetworkSecurityGroup.AllowPort g st vm s e sr = Except.ok (st, []) := by
  unfold AzureNetworkSecurityGroup.AllowPort
  rw [if_pos h]

/-- A fresh request below the capacity bound appends its entry and issues
one rule-creation command at priority `100 + len(rules)`. -/
theorem AllowPort_fresh (g : AzureNetworkSecurityGroup) (st : NsgState)
    (vm : String) (s : Nat) (e : Option Nat) (sr : Option String)
    (h : (s, pyEndPort s e) ∉ st.ruleKeys)
    (hcap : st.rules.length < 3995) :
    AzureNetworkSecurityGroup.AllowPort g st vm s e sr =
      Except.ok ({ st with rules := st.rules ++ [callEntry (vm, s, e, sr)] },
        [callCmd g (vm, s, e, sr) (100 + st.rules.length)]) := by
  unfold AzureNetworkSecurityGroup.AllowPort
  rw [if_neg h, if_neg (by omega)]
  rfl

/-- A fresh request at the capacity bound raises `ValueError`. -/
theorem AllowPort_cap (g : AzureNetworkSecurityGroup) (st : NsgState)
    (vm : String) (s : Nat) (e : Option Nat) (sr : Option String)
    (h : (s, pyEndPort s e) ∉ st.ruleKeys)
    (hcap : 3995 ≤ st.rules.length) :
    AzureNetworkSecurityGroup.AllowPort g st vm s e sr =
      Except.error "Too many firewall rules!" := by
  unfold AzureNetworkSecurityGroup.AllowPort
  rw [if_neg h, if_pos (by omega)]

/-! ### Claim C3 -/

/-- C3: after `DisallowAllPorts` returns, the rule table is empty and the
deny-all flag is set; one `nsg rule delete` was issued for every rule that
was in the table, all before the DenyAll creation; a second
`DisallowAllPorts` issues no commands at all — no deletes and no second
DenyAll creation. -/
theorem disallowAllPorts_resets_table (g : AzureNetworkSecurityGroup)
    (st : NsgState) :
    (AzureNetworkSecurityGroup.DisallowAllPorts g st).1.rules = [] ∧
    (AzureNetworkSecurityGroup.DisallowAllPorts g st).1.have_deny_all_rule = true ∧
    (AzureNetworkSecurityGroup.DisallowAllPorts g st).2 =
      st.rules.map (fun pr =>
        AzureCmd.nsgRuleDelete pr.2 g.resource_group.name g.name) ++
        (if st.have_deny_all_rule then [] else [denyAllCmd g]) ∧
    AzureNetworkSecurityGroup.DisallowAllPorts g
        (AzureNetworkSecurityGroup.DisallowAllPorts g st).1 =
      ((AzureNetworkSecurityGroup.DisallowAllPorts g st).1, []) := by
  unfold AzureNetworkSecurityGroup.DisallowAllPorts denyAllCmd
  by_cases h : st.have_deny_all_rule <;> simp [h]

/-! ### Claim C6 -/

/-- C6 counterexample: the resource-group and storage-account existence
probes return `true` on the serialized empty JSON object with exit code
0 — they inspect only the exit code, contradicting the claim that every
probe in the module treats `'{}\n'` as non-existence. -/
theorem existsProbe_ignores_emptyObject :
    AzureResourceGroup.ExistsProbe emptyJsonObject 0 = true ∧
    AzureStorageAccount.ExistsProbe emptyJsonObject 0 = true :=
  ⟨rfl, rfl⟩

/-- C6 (amended): the virtual-network, subnet and security-group probes
report non-existence on the empty JSON object regardless of the exit
code; the resource-group and storage-account probes return `true` exactly
when the exit code is 0 — for every exit code — and never inspect stdout
(two probes differing only in stdout agree at every exit code). -/
theorem existsProbe_emptyObject_split (ret : Nat) (stdout stdout2 : String) :
    AzureVirtualNetwork.ExistsProbe emptyJsonObject ret = false ∧
    AzureSubnet.ExistsProbe emptyJsonObject ret = false ∧
    AzureNetworkSecurityGroup.ExistsProbe emptyJsonObject ret = false ∧
    (AzureResourceGroup.ExistsProbe stdout ret = true ↔ ret = 0) ∧
    (AzureStorageAccount.ExistsProbe stdout ret = true ↔ ret = 0) ∧
    AzureResourceGroup.ExistsProbe stdout ret =
      AzureResourceGroup.ExistsProbe stdout2 ret ∧
    AzureStorageAccount.ExistsProbe stdout ret =
      AzureStorageAccount.ExistsProbe stdout2 ret := by
  refine ⟨?_, ?_, ?_, ?_, ?_, rfl, rfl⟩ <;>
    simp [AzureVirtualNetwork.ExistsProbe, AzureSubnet.ExistsProbe,
      AzureNetworkSecurityGroup.ExistsProbe, AzureResourceGroup.ExistsProbe,
      AzureStorageAccount.ExistsProbe]

/-! ### Claim C8 -/

/-- C8: `AllowPort` is independent of `source_range`: two calls that
differ only in it produce identical results (same table, same commands,
same error if any), both on the security group itself and through the
firewall proxy. -/
theorem allowPort_sourceRange_independent (g : AzureNetworkSecurityGroup)
    (st : NsgState) (vm : String) (s : Nat) (e : Option Nat)
    (sr1 sr2 : Option String) :
    AzureNetworkSecurityGroup.AllowPort g st vm s e sr1 =
      AzureNetworkSecurityGroup.AllowPort g st vm s e sr2 ∧
    AzureFirewall.AllowPort g st vm s e sr1 =
      AzureFirewall.AllowPort g st vm s e sr2 :=
  ⟨rfl, rfl⟩

/-! ### Sequencing lemmas -/

/-- Unfolding of `NsgRun` on a cons. -/
theorem NsgRun_cons (g : AzureNetworkSecurityGroup) (st : NsgState)
    (op : NsgOp) (ops : List NsgOp) :
    NsgRun g st (op :: ops) =
      ((NsgRun g (NsgStep g st op).1 ops).1,
       (NsgStep g st op).2 ++ (NsgRun g (NsgStep g st op).1 ops).2) := rfl

/-- Unfolding of `NsgStep` on an `allowPort`. -/
theorem NsgStep_allow (g : AzureNetworkSecurityGroup) (st : NsgState)
    (vm : String) (s : Nat) (e : Option Nat) (sr : Option String) :
    NsgStep g st (NsgOp.allowPort vm s e sr) =
      match AzureNetworkSecurityGroup.AllowPort g st vm s e sr with
      | Except.ok res => res
      | Except.error _ => (st, []) := rfl

/-- After one `allowPort` step below capacity, the requested key is in the
table (it was either already there or has just been inserted). -/
theorem NsgStep_allow_key_mem (g : AzureNetworkSecurityGroup) (st : NsgState)
    (vm : String) (s : Nat) (e : Option Nat) (sr : Option String)
    (hcap : st.rules.length < 3995) :
    (s, pyEndPort s e) ∈ ((NsgStep g st (NsgOp.allowPort vm s e sr)).1).ruleKeys := by
  by_cases hmem : (s, pyEndPort s e) ∈ st.ruleKeys
  · rw [NsgStep_allow, AllowPort_mem g st vm s e sr hmem]
    exact hmem
  · rw [NsgStep_allow, AllowPort_fresh g st vm s e sr hmem hcap]
    simp [NsgState.ruleKeys, callEntry, portEntry, callKey]

/-- After one `allowPort` step for a pair already in the table, nothing
changes and nothing is issued. -/
theorem NsgStep_allow_mem (g : AzureNetworkSecurityGroup) (st : NsgState)
    (vm : String) (s : Nat) (e : Option Nat) (sr : Option String)
    (h : (s, pyEndPort s e) ∈ st.ruleKeys) :
    NsgStep g st (NsgOp.allowPort vm s e sr) = (st, []) := by
  rw [NsgStep_allow, AllowPort_mem g st vm s e sr h]

/-- After one fresh `allowPort` step below capacity, the entry is appended
and one creation command is issued. -/
theorem NsgStep_allow_fresh (g : AzureNetworkSecurityGroup) (st : NsgState)
    (vm : String) (s : Nat) (e : Option Nat) (sr : Option String)
    (h : (s, pyEndPort s e) ∉ st.ruleKeys)
    (hcap : st.rules.length < 3995) :
    NsgStep g st (NsgOp.allowPort vm s e sr) =
      ({ st with rules := st.rules ++ [portEntry s e] },
       [portCmd g s e (100 + st.rules.length)]) := by
  rw [NsgStep_allow, AllowPort_fresh g st vm s e sr h hcap]
  rfl

/-- Any number of repeated `AllowPort` calls for a pair already in the
table leave the state unchanged and issue nothing. -/
theorem NsgRun_allow_mem (g : AzureNetworkSecurityGroup) (s : Nat)
    (e : Option Nat) :
    ∀ (cs : List (String × Option String)) (st : NsgState),
      (s, pyEndPort s e) ∈ st.ruleKeys →
      NsgRun g st (cs.map fun c => NsgOp.allowPort c.1 s e c.2) = (st, []) := by
  intro cs
  induction cs with
  | nil => intro st h; rfl
  | cons c cs ih =>
    intro st h
    rw [List.map_cons, NsgRun_cons, NsgStep_allow_mem g st c.1 s e c.2 h,
      ih st h]
    rfl

/-! ### Claim C1 -/

/-- C1: any nonempty sequence of `AllowPort` calls for one
`(start_port, end_port)` pair — from any callers and with any source
ranges — issues exactly one `nsg rule create` command and leaves exactly
one entry for that pair in the rule table; every repeated request returns
without further effect. -/
theorem allowPort_dedup (g : AzureNetworkSecurityGroup) (s : Nat)
    (e : Option Nat) (callers : List (String × Option String))
    (h : callers ≠ []) :
    NsgRun g initNsgState (callers.map fun c => NsgOp.allowPort c.1 s e c.2) =
      ({ rules := [portEntry s e], have_deny_all_rule := false },
       [portCmd g s e 100]) := by
  match callers, h with
  | c :: cs, _ =>
    rw [List.map_cons, NsgRun_cons]
    have hfresh : (s, pyEndPort s e) ∉ initNsgState.ruleKeys := by
      simp [initNsgState, NsgState.ruleKeys]
    rw [NsgStep_allow_fresh g initNsgState c.1 s e c.2 hfresh (by simp [initNsgState])]
    have hmem : (s, pyEndPort s e) ∈
        (NsgState.ruleKeys { rules := initNsgState.rules ++ [portEntry s e]
                           , have_deny_all_rule := initNsgState.have_deny_all_rule }) := by
      simp [initNsgState, NsgState.ruleKeys, portEntry]
    rw [NsgRun_allow_mem g s e cs _ hmem]
    simp [initNsgState]

/-- C1 witness: two different callers request port 22; one command, one
entry. -/
theorem allowPort_dedup_witness :
    NsgRun gW initNsgState
        (([("vm1", none), ("vm2", some "10.0.0.0/8")] :
            List (String × Option String)).map fun c =>
          NsgOp.allowPort c.1 22 none c.2) =
      ({ rules := [portEntry 22 none], have_deny_all_rule := false },
       [portCmd gW 22 none 100]) :=
  allowPort_dedup gW 22 none [("vm1", none), ("vm2", some "10.0.0.0/8")]
    (by decide)

/-! ### Claim C10 -/

/-- The Python `or`-normalization sends `None`, `0` and `p` itself to
`p`. -/
theorem pyEndPort_self (p : Nat) (e : Option Nat)
    (h : e = none ∨ e = some 0 ∨ e = some p) : pyEndPort p e = p := by
  rcases h with rfl | rfl | rfl <;> simp [pyEndPort]

/-- C10: a falsy `end_port` is replaced by `start_port`: calls with
`end_port` absent, `None`/`0`, or equal to `start_port` all normalize to
the key `(p, p)` (never to a range `(p, 0)`), and any of them performed
after any other is an idempotent no-op. -/
theorem allowPort_falsy_endPort (g : AzureNetworkSecurityGroup)
    (st : NsgState) (vm vm2 : String) (sr sr2 : Option String) (p : Nat)
    (e1 e2 : Option Nat)
    (h1 : e1 = none ∨ e1 = some 0 ∨ e1 = some p)
    (h2 : e2 = none ∨ e2 = some 0 ∨ e2 = some p)
    (hcap : st.rules.length < 3995) :
    pyEndPort p e1 = p ∧ pyEndPort p e2 = p ∧
    AzureNetworkSecurityGroup.AllowPort g
        (NsgStep g st (NsgOp.allowPort vm p e1 sr)).1 vm2 p e2 sr2 =
      Except.ok ((NsgStep g st (NsgOp.allowPort vm p e1 sr)).1, []) := by
  have hp1 := pyEndPort_self p e1 h1
  have hp2 := pyEndPort_self p e2 h2
  refine ⟨hp1, hp2, ?_⟩
  apply AllowPort_mem
  rw [hp2]
  have hmem := NsgStep_allow_key_mem g st vm p e1 sr hcap
  rwa [hp1] at hmem

/-- C10 witness: `AllowPort(vm1, 80, 0)` then `AllowPort(vm2, 80)` — both
normalize to `(80, 80)` and the second is a no-op. -/
theorem allowPort_falsy_endPort_witness :
    pyEndPort 80 (some 0) = 80 ∧ pyEndPort 80 none = 80 ∧
    AzureNetworkSecurityGroup.AllowPort gW
        (NsgStep gW initNsgState (NsgOp.allowPort "vm1" 80 (some 0) none)).1
        "vm2" 80 none (some "0.0.0.0/0") =
      Except.ok
        ((NsgStep gW initNsgState (NsgOp.allowPort "vm1" 80 (some 0) none)).1,
          []) :=
  allowPort_falsy_endPort gW initNsgState "vm1" "vm2" none (some "0.0.0.0/0")
    80 (some 0) none (Or.inr (Or.inl rfl)) (Or.inl rfl) (by decide)

/-! ### Claim C4 -/

/-- An `allowPort` step never changes the deny-all flag. -/
theorem NsgStep_allow_flag (g : AzureNetworkSecurityGroup) (st : NsgState)
    (vm : String) (s : Nat) (e : Option Nat) (sr : Option String) :
    (NsgStep g st (NsgOp.allowPort vm s e sr)).1.have_deny_all_rule =
      st.have_deny_all_rule := by
  by_cases hmem : (s, pyEndPort s e) ∈ st.ruleKeys
  · rw [NsgStep_allow_mem g st vm s e sr hmem]
  · by_cases hcap : st.rules.length < 3995
    · rw [NsgStep_allow_fresh g st vm s e sr hmem hcap]
    · rw [NsgStep_allow, AllowPort_cap g st vm s e sr hmem (by omega)]

/-- An `allowPort` step never issues the DenyAll creation command. -/
theorem NsgStep_allow_denyAll_count (g g' : AzureNetworkSecurityGroup)
    (st : NsgState) (vm : String) (s : Nat) (e : Option Nat)
    (sr : Option String) :
    ((NsgStep g st (NsgOp.allowPort vm s e sr)).2).count (denyAllCmd g') = 0 := by
  by_cases hmem : (s, pyEndPort s e) ∈ st.ruleKeys
  · rw [NsgStep_allow_mem g st vm s e sr hmem]
    rfl
  · by_cases hcap : st.rules.length < 3995
    · rw [NsgStep_allow_fresh g st vm s e sr hmem hcap]
      simp [portCmd, denyAllCmd]
    · rw [NsgStep_allow, AllowPort_cap g st vm s e sr hmem (by omega)]
      rfl

/-- `DisallowAllPorts` always leaves the flag set. -/
theorem disallow_flag (g : AzureNetworkSecurityGroup) (st : NsgState) :
    (AzureNetworkSecurityGroup.DisallowAllPorts g st).1.have_deny_all_rule =
      true := by
  unfold AzureNetworkSecurityGroup.DisallowAllPorts
  by_cases h : st.have_deny_all_rule <;> simp [h]

/-- `DisallowAllPorts` issues the DenyAll creation exactly when the flag
was not yet set. -/
theorem disallow_denyAll_count (g : AzureNetworkSecurityGroup) (st : NsgState) :
    ((AzureNetworkSecurityGroup.DisallowAllPorts g st).2).count (denyAllCmd g) =
      if st.have_deny_all_rule then 0 else 1 := by
  unfold AzureNetworkSecurityGroup.DisallowAllPorts
  by_cases h : st.have_deny_all_rule <;>
    simp [h, denyAllCmd, List.count_eq_zero, List.count_append]

/-- No step resets a set deny-all flag. -/
theorem NsgStep_flag_true (g : AzureNetworkSecurityGroup) (st : NsgState)
    (op : NsgOp) (h : st.have_deny_all_rule = true) :
    (NsgStep g st op).1.have_deny_all_rule = true := by
  cases op with
  | allowPort vm s e sr => rw [NsgStep_allow_flag]; exact h
  | disallowAllPorts => exact disallow_flag g st

/-- Once set, the deny-all flag survives any further operations. -/
theorem NsgRun_flag_mono (g : AzureNetworkSecurityGroup) :
    ∀ (ops : List NsgOp) (st : NsgState), st.have_deny_all_rule = true →
      (NsgRun g st ops).1.have_deny_all_rule = true := by
  intro ops
  induction ops with
  | nil => intro st h; exact h
  | cons op ops ih =>
    intro st h
    rw [NsgRun_cons]
    exact ih (NsgStep g st op).1 (NsgStep_flag_true g st op h)

/-- Composition of runs. -/
theorem NsgRun_append (g : AzureNetworkSecurityGroup) :
    ∀ (l1 l2 : List NsgOp) (st : NsgState),
      NsgRun g st (l1 ++ l2) =
        ((NsgRun g (NsgRun g st l1).1 l2).1,
         (NsgRun g st l1).2 ++ (NsgRun g (NsgRun g st l1).1 l2).2) := by
  intro l1
  induction l1 with
  | nil => intro l2 st; rfl
  | cons op l1 ih =>
    intro l2 st
    rw [List.cons_append, NsgRun_cons, NsgRun_cons, ih l2 (NsgStep g st op).1]
    simp [List.append_assoc]

/-- The count of DenyAll creations in any run is 0 if the flag was already
set, else 1 or 0 according to whether the run sets it. -/
theorem NsgRun_denyAll_count (g : AzureNetworkSecurityGroup) :
    ∀ (ops : List NsgOp) (st : NsgState),
      ((NsgRun g st ops).2).count (denyAllCmd g) =
        (if st.have_deny_all_rule then 0
         else if (NsgRun g st ops).1.have_deny_all_rule then 1 else 0) := by
  intro ops
  induction ops with
  | nil =>
    intro st
    cases hF : st.have_deny_all_rule <;> simp [NsgRun, hF]
  | cons op ops ih =>
    intro st
    rw [NsgRun_cons]
    simp only [List.count_append]
    cases op with
    | allowPort vm s e sr =>
      rw [NsgStep_allow_denyAll_count g g st vm s e sr, ih]
      rw [NsgStep_allow_flag g st vm s e sr]
      simp
    | disallowAllPorts =>
      have hstep : NsgStep g st NsgOp.disallowAllPorts =
          AzureNetworkSecurityGroup.DisallowAllPorts g st := rfl
      rw [hstep, disallow_denyAll_count g st, ih]
      rw [disallow_flag g st]
      have hfin := NsgRun_flag_mono g ops
        (AzureNetworkSecurityGroup.DisallowAllPorts g st).1 (disallow_flag g st)
      rw [hfin]
      cases hF : st.have_deny_all_rule <;> simp

/-- C4 counterexample: after `DisallowAllPorts` sets the deny-all flag, a
subsequent `AllowPort` repopulates the rule table, so the table does not
stay empty in all states reachable after the flag is set. -/
theorem denyAll_table_not_invariant :
    (NsgRun gW initNsgState [NsgOp.disallowAllPorts]).1.have_deny_all_rule =
      true ∧
    (NsgRun gW initNsgState
        [NsgOp.disallowAllPorts,
         NsgOp.allowPort "vm" 22 none none]).1.rules ≠ [] := by
  constructor
  · rfl
  · decide

/-- C4 (amended): over any operation sequence from a fresh security group
the DenyAll creation command is issued at most once — exactly once among
runs that end with the deny-all flag set, never otherwise — and once the
flag is set it remains set under any further operations.  (The rule table
itself does not stay empty: a later `AllowPort` may repopulate it.) -/
theorem denyAll_created_at_most_once (g : AzureNetworkSecurityGroup)
    (ops : List NsgOp) :
    ((NsgRun g initNsgState ops).2.count (denyAllCmd g) =
      if (NsgRun g initNsgState ops).1.have_deny_all_rule then 1 else 0) ∧
    (∀ more : List NsgOp,
      (NsgRun g initNsgState ops).1.have_deny_all_rule = true →
      (NsgRun g initNsgState (ops ++ more)).1.have_deny_all_rule = true) := by
  constructor
  · rw [NsgRun_denyAll_count g ops initNsgState]
    rfl
  · intro more h
    rw [NsgRun_append g ops more initNsgState]
    exact NsgRun_flag_mono g more (NsgRun g initNsgState ops).1 h

/-- C4 witness: one `DisallowAllPorts` issues the DenyAll creation once;
the flag stays set across a further `AllowPort`. -/
theorem denyAll_created_at_most_once_witness :
    ((NsgRun gW initNsgState [NsgOp.disallowAllPorts]).2.count (denyAllCmd gW) =
      if (NsgRun gW initNsgState
          [NsgOp.disallowAllPorts]).1.have_deny_all_rule then 1 else 0) ∧
    (NsgRun gW initNsgState
        ([NsgOp.disallowAllPorts] ++
          [NsgOp.allowPort "vm" 443 none none])).1.have_deny_all_rule = true :=
  ⟨(denyAll_created_at_most_once gW [NsgOp.disallowAllPorts]).1,
   (denyAll_created_at_most_once gW [NsgOp.disallowAllPorts]).2
     [NsgOp.allowPort "vm" 443 none none] rfl⟩

/-! ### Claim C7 -/

/-- Once the benchmark spec caches a group, `GetResourceGroup` keeps
returning exactly it without touching the spec. -/
theorem getIter_cached (zones : List String) (run_uri : String) :
    ∀ (n : Nat) (spec : BenchmarkSpec) (group : AzureResourceGroup),
      spec.azure_resource_group = some group →
      getIter zones run_uri n spec = (List.replicate n group, spec) := by
  intro n
  induction n with
  | zero => intro spec group h; rfl
  | succ n ih =>
    intro spec group h
    simp only [getIter, GetResourceGroup, h, ih spec group h,
      List.replicate_succ]

/-- C7: within one run (fresh spec cache), every one of `n + 1` calls to
`GetResourceGroup` returns the same handle, constructed once, whose name
is `'pkb<run_uri>-<spec_uid>'`; and on the cached handle the underlying
resource-group creation runs at most once — a second `Create` issues no
command. -/
theorem getResourceGroup_cached_once (zones : List String)
    (run_uri uid : String) (n : Nat) :
    (getIter zones run_uri (n + 1)
        { uid := uid, azure_resource_group := none }).1 =
      List.replicate (n + 1) (AzureResourceGroup.init zones run_uri uid) ∧
    (AzureResourceGroup.init zones run_uri uid).name =
      "pkb" ++ run_uri ++ "-" ++ uid ∧
    (freshResource.Create
        (AzureResourceGroup.init zones run_uri uid).createCmds).2 =
      (AzureResourceGroup.init zones run_uri uid).createCmds ∧
    ((freshResource.Create
        (AzureResourceGroup.init zones run_uri uid).createCmds).1.Create
        (AzureResourceGroup.init zones run_uri uid).createCmds).2 = [] := by
  refine ⟨?_, rfl, rfl, rfl⟩
  simp only [getIter, GetResourceGroup]
  rw [getIter_cached zones run_uri n
    { uid := uid, azure_resource_group :=
        some (AzureResourceGroup.init zones run_uri uid) }
    (AzureResourceGroup.init zones run_uri uid) rfl]
  rw [List.replicate_succ]

/-! ### Claim C9 -/

/-- Cancellation of a common prefix and suffix of strings. -/
theorem string_middle_cancel (s t a b : String)
    (h : s ++ a ++ t = s ++ b ++ t) : a = b := by
  have hd := congrArg String.data h
  simp only [String.data_append] at hd
  have h1 : a.data ++ t.data = b.data ++ t.data := by
    rw [List.append_assoc, List.append_assoc] at hd
    exact List.append_cancel_left hd
  have h2 : a.data = b.data := List.append_cancel_right h1
  cases a
  cases b
  exact congrArg String.mk h2

/-- The address-space format `'10.%s.0.0/16'` is injective in the
counter. -/
theorem addressSpace_injective :
    Function.Injective (fun k : Nat => "10." ++ Nat.repr k ++ ".0.0/16") := by
  intro a b h
  exact Nat.repr_injective (string_middle_cancel "10." ".0.0/16"
    (Nat.repr a) (Nat.repr b) h)

/-- The address spaces of a construction sequence started at counter `k`
are `10.k.0.0/16, 10.(k+1).0.0/16, …` in order. -/
theorem buildVnets_spaces (rg : AzureResourceGroup) :
    ∀ (params : List (String × String)) (k : Nat),
      ((buildVnets rg params k).map fun v => v.address_space) =
        (List.range' k params.length).map
          (fun j => "10." ++ Nat.repr j ++ ".0.0/16") := by
  intro params
  induction params with
  | nil => intro k; rfl
  | cons ln rest ih =>
    intro k
    simp only [buildVnets, AzureVirtualNetwork.init, List.map_cons,
      List.length_cons, List.range'_succ, ih (k + 1)]

/-- C9: constructing `N` virtual networks from the shared counter yields
the `N` pairwise-distinct address spaces `10.0.0.0/16` through
`10.(N-1).0.0/16`, the `k`-th construction (from 0) receiving
`10.k.0.0/16`. -/
theorem vnet_distinct_address_spaces (rg : AzureResourceGroup)
    (params : List (String × String)) :
    ((buildVnets rg params 0).map fun v => v.address_space) =
      (List.range params.length).map
        (fun k => "10." ++ Nat.repr k ++ ".0.0/16") ∧
    ((buildVnets rg params 0).map fun v => v.address_space).Nodup := by
  have hmain := buildVnets_spaces rg params 0
  constructor
  · rw [hmain, List.range_eq_range']
  · rw [hmain, ← List.range_eq_range']
    exact List.Nodup.map addressSpace_injective (List.nodup_range _)

/-! ### Claim C5 -/

/-- C5: `AzureNetwork.Create` issues creation steps in exactly the order
resource-group, storage-account, virtual-network, subnet,
network-security-group, attach-to-subnet, and `AzureNetwork.Delete`
issues deletion steps in exactly the order subnet, nsg, vnet,
storage-account, resource-group; when a second topology shares the
resource-group handle, the underlying group create and group delete are
each issued exactly once across both. -/
theorem network_create_delete_order (net net2 : AzureNetwork) :
    (AzureNetwork.Create net freshResource freshNetworkLifecycle).2 =
      [AzureCmd.groupCreate net.resource_group.name net.resource_group.location,
       AzureCmd.storageAccountCreate net.storage_account.kind
         net.storage_account.storage_type net.storage_account.name
         net.storage_account.resource_group.name
         (if net.storage_account.location = "" then none
          else some net.storage_account.location)
         (if net.storage_account.kind = "BlobStorage"
          then net.storage_account.access_tier else none),
       AzureCmd.vnetCreate net.vnet.location net.vnet.address_space
         net.vnet.name net.vnet.resource_group.name,
       AzureCmd.subnetCreate net.subnet.vnet.name net.subnet.vnet.address_space
         net.subnet.name net.subnet.resource_group.name,
       AzureCmd.nsgCreate net.nsg.location net.nsg.name
         net.nsg.resource_group.name,
       AzureCmd.subnetSet net.nsg.subnet.name net.nsg.name
         net.nsg.resource_group.name net.nsg.subnet.vnet.name] ∧
    (AzureNetwork.Delete net freshResource freshNetworkLifecycle).2 =
      [AzureCmd.subnetDelete net.subnet.vnet.name net.subnet.name
         net.subnet.resource_group.name,
       AzureCmd.nsgDelete net.nsg.name net.nsg.resource_group.name,
       AzureCmd.vnetDelete net.vnet.name net.vnet.resource_group.name,
       AzureCmd.storageAccountDelete net.storage_account.name
         net.storage_account.resource_group.name,
       AzureCmd.groupDelete net.resource_group.name] ∧
    ((AzureNetwork.Create net freshResource freshNetworkLifecycle).2 ++
      (AzureNetwork.Create net2
        (AzureNetwork.Create net freshResource freshNetworkLifecycle).1.1
        freshNetworkLifecycle).2).countP AzureCmd.isGroupCreate = 1 ∧
    ((AzureNetwork.Delete net freshResource freshNetworkLifecycle).2 ++
      (AzureNetwork.Delete net2
        (AzureNetwork.Delete net freshResource freshNetworkLifecycle).1.1
        freshNetworkLifecycle).2).countP AzureCmd.isGroupDelete = 1 := by
  refine ⟨rfl, rfl, ?_, ?_⟩ <;>
    simp [AzureNetwork.Create, AzureNetwork.Delete, ResourceLifecycle.Create,
      ResourceLifecycle.Delete, freshResource, freshNetworkLifecycle,
      AzureResourceGroup.createCmds, AzureResourceGroup.deleteCmds,
      AzureStorageAccount.createCmds, AzureStorageAccount.deleteCmds,
      AzureVirtualNetwork.createCmds, AzureVirtualNetwork.deleteCmds,
      AzureSubnet.createCmds, AzureSubnet.deleteCmds,
      AzureNetworkSecurityGroup.createCmds, AzureNetworkSecurityGroup.deleteCmds,
      AzureNetworkSecurityGroup.AttachToSubnet,
      AzureCmd.isGroupCreate, AzureCmd.isGroupDelete,
      List.countP_cons, List.countP_append]
/-! ### Claim C2 -/

/-- Running a list of pairwise-distinct, fresh `AllowPort` calls appends
their entries in order and issues one creation command per call, at
consecutive priorities starting from `100 + len(rules)`. -/
theorem NsgRun_allowOps (g : AzureNetworkSecurityGroup) :
    ∀ (ts : List AllowCall) (st : NsgState),
      (∀ t ∈ ts, callKey t ∉ st.ruleKeys) →
      (ts.map callKey).Nodup →
      st.rules.length + ts.length ≤ 3995 →
      NsgRun g st (allowOps ts) =
        ({ rules := st.rules ++ ts.map callEntry
         , have_deny_all_rule := st.have_deny_all_rule },
         (ts.zip (List.range' (100 + st.rules.length) ts.length)).map
           fun tp => callCmd g tp.1 tp.2) := by
  intro ts
  induction ts with
  | nil =>
    intro st h1 h2 h3
    simp [allowOps, NsgRun]
  | cons t ts ih =>
    intro st h1 h2 h3
    simp only [allowOps, List.map_cons] at *
    rw [NsgRun_cons]
    have hfresh : (t.2.1, pyEndPort t.2.1 t.2.2.1) ∉ st.ruleKeys :=
      h1 t (List.mem_cons_self t ts)
    have hcap : st.rules.length < 3995 := by
      have hl : (t :: ts).length = ts.length + 1 := List.length_cons t ts
      omega
    rw [show NsgOp.allowPort t.1 t.2.1 t.2.2.1 t.2.2.2 =
      (fun t : AllowCall => NsgOp.allowPort t.1 t.2.1 t.2.2.1 t.2.2.2) t from rfl] at *
    rw [NsgStep_allow_fresh g st t.1 t.2.1 t.2.2.1 t.2.2.2 hfresh hcap]
    have hnd' : (ts.map callKey).Nodup := (List.nodup_cons.mp h2).2
    have hnotin : callKey t ∉ ts.map callKey := (List.nodup_cons.mp h2).1
    have h1' : ∀ t' ∈ ts, callKey t' ∉
        (NsgState.ruleKeys { rules := st.rules ++ [portEntry t.2.1 t.2.2.1]
                           , have_deny_all_rule := st.have_deny_all_rule }) := by
      intro t' ht' hmem
      simp only [NsgState.ruleKeys, List.map_append, List.map_cons,
        List.map_nil, List.mem_append, List.mem_singleton] at hmem
      rcases hmem with hmem | hmem
      · exact h1 t' (List.mem_cons_of_mem t ht') hmem
      · have hck : callKey t' = callKey t := hmem
        exact hnotin (hck ▸ List.mem_map_of_mem callKey ht')
    have h3' : (st.rules ++ [portEntry t.2.1 t.2.2.1]).length + ts.length ≤ 3995 := by
      simp only [List.length_append, List.length_cons, List.length_nil]
      have hl : (t :: ts).length = ts.length + 1 := List.length_cons t ts
      omega
    rw [ih { rules := st.rules ++ [portEntry t.2.1 t.2.2.1]
           , have_deny_all_rule := st.have_deny_all_rule } h1' hnd' h3']
    simp [List.range'_succ, List.append_assoc, callEntry, callCmd,
      List.length_append]
    rfl

/-- Extracting the priorities from a trace of rule-creation commands. -/
theorem rulePriorities_callCmds (g : AzureNetworkSecurityGroup) :
    ∀ l : List (AllowCall × Nat),
      rulePriorities (l.map fun tp => callCmd g tp.1 tp.2) = l.map Prod.snd := by
  intro l
  induction l with
  | nil => rfl
  | cons tp l ih =>
    have hhead : priorityOf (callCmd g tp.1 tp.2) = some tp.2 := rfl
    simp only [List.map_cons, rulePriorities, List.filterMap_cons, hhead] at *
    rw [ih]

/-- The rule keys of a state built from call entries are the call keys. -/
theorem ruleKeys_callEntries (ts : List AllowCall) :
    NsgState.ruleKeys { rules := ts.map callEntry, have_deny_all_rule := false } =
      ts.map callKey := by
  simp only [NsgState.ruleKeys, List.map_map]
  rfl

/-- C2: 3995 pairwise-distinct `AllowPort` requests from a fresh group are
assigned the strictly increasing priorities 100, 101, …, 4094 in call
order (the k-th distinct request, counting from 1, gets `99 + k`); the
3996-th distinct request fails with the capacity `ValueError`, issues no
command, and leaves the rule table unchanged. -/
theorem allowPort_priority_sequence (g : AzureNetworkSecurityGroup)
    (vm : String) (sr : Option String) (ts : List AllowCall) (s : Nat)
    (e : Option Nat) (hnd : (ts.map callKey).Nodup) (hlen : ts.length = 3995)
    (hfresh : (s, pyEndPort s e) ∉ ts.map callKey) :
    rulePriorities (NsgRun g initNsgState (allowOps ts)).2 =
      List.range' 100 3995 ∧
    AzureNetworkSecurityGroup.AllowPort g
        (NsgRun g initNsgState (allowOps ts)).1 vm s e sr =
      Except.error "Too many firewall rules!" ∧
    NsgStep g (NsgRun g initNsgState (allowOps ts)).1
        (NsgOp.allowPort vm s e sr) =
      ((NsgRun g initNsgState (allowOps ts)).1, []) := by
  have hrun := NsgRun_allowOps g ts initNsgState
    (by intro t ht; simp [initNsgState, NsgState.ruleKeys])
    hnd (by simp [initNsgState, hlen])
  have hst : (NsgRun g initNsgState (allowOps ts)).1 =
      { rules := ts.map callEntry, have_deny_all_rule := false } := by
    rw [hrun]
    rfl
  have hkeys : ((NsgRun g initNsgState (allowOps ts)).1).ruleKeys =
      ts.map callKey := by
    rw [hst, ruleKeys_callEntries]
  have hlen' : ((NsgRun g initNsgState (allowOps ts)).1).rules.length = 3995 := by
    rw [hst]
    simp [hlen]
  have hcapfail : AzureNetworkSecurityGroup.AllowPort g
      (NsgRun g initNsgState (allowOps ts)).1 vm s e sr =
      Except.error "Too many firewall rules!" := by
    apply AllowPort_cap
    · rw [hkeys]; exact hfresh
    · omega
  refine ⟨?_, hcapfail, ?_⟩
  · rw [hrun]
    simp only []
    rw [rulePriorities_callCmds g]
    rw [List.map_snd_zip]
    · simp [initNsgState, hlen]
    · simp [initNsgState, hlen, List.length_range']
  · rw [NsgStep_allow, hcapfail]

/-- The keys of the 3995 fixture calls are `(1,1) … (3995,3995)`. -/
theorem wPorts_keys :
    wPorts.map callKey = (List.range 3995).map fun i => (i + 1, i + 1) := by
  simp only [wPorts, List.map_map]
  rfl

theorem wPorts_len : wPorts.length = 3995 := by
  simp [wPorts]

theorem wPorts_nodup : (wPorts.map callKey).Nodup := by
  rw [wPorts_keys]
  refine List.Nodup.map ?_ (List.nodup_range _)
  intro a b h
  simp only [Prod.mk.injEq] at h
  omega

theorem wPorts_fresh : ((4000 : Nat), pyEndPort 4000 none) ∉ wPorts.map callKey := by
  rw [wPorts_keys]
  intro hmem
  simp only [List.mem_map, List.mem_range] at hmem
  obtain ⟨i, hi, heq⟩ := hmem
  simp only [pyEndPort, Prod.mk.injEq] at heq
  omega

/-- C2 witness: 3995 distinct requests for ports 1–3995 receive
priorities 100–4094; the 3996-th (port 4000) raises the capacity error
without state change or command. -/
theorem allowPort_priority_sequence_witness :
    rulePriorities (NsgRun gW initNsgState (allowOps wPorts)).2 =
      List.range' 100 3995 ∧
    AzureNetworkSecurityGroup.AllowPort gW
        (NsgRun gW initNsgState (allowOps wPorts)).1 "vm" 4000 none none =
      Except.error "Too many firewall rules!" ∧
    NsgStep gW (NsgRun gW initNsgState (allowOps wPorts)).1
        (NsgOp.allowPort "vm" 4000 none none) =
      ((NsgRun gW initNsgState (allowOps wPorts)).1, []) :=
  allowPort_priority_sequence gW "vm" none wPorts 4000 none wPorts_nodup
    wPorts_len wPorts_fresh
